import Mathlib

/-!
Verification of the BASIN-3D synthesis core (`basin3d/core/synthesis.py`,
`basin3d/core/schema/enum.py`) against its natural-language specification.

Python strings that undergo character-level manipulation (identifiers) are
embedded as `List Char`; diagnostic texts, which are only ever compared as a
whole, are embedded as Lean `String`.
-/

namespace Basin3d

/-- Identifiers (composite ids, id prefixes, datasource filter names). -/
abbrev Ident := List Char

/-! ## Python string primitives used by the source -/

/-- Helper for `pySplit`: accumulates the current chunk (reversed) while
scanning, mirroring CPython `str.split` with a one-character separator. -/
def pySplitAux (sep : Char) : List Char → List Char → List (List Char)
  | [], acc => [acc.reverse]
  | c :: rest, acc =>
    if c = sep then acc.reverse :: pySplitAux sep rest []
    else pySplitAux sep rest (c :: acc)

/-- Python `s.split(sep)` for a one-character separator `sep`
(the only form the source uses: `"-"` and `","`). -/
def pySplit (s : List Char) (sep : Char) : List (List Char) :=
  pySplitAux sep s []

/-- Python `s.replace(old, new, 1)`: replace the first (leftmost) occurrence
of `old` in `s` by `new`; if `old` does not occur, return `s` unchanged.
As in Python, an empty `old` matches at position 0. -/
def pyReplaceOnce (old new : List Char) : List Char → List Char
  | [] => if old.isPrefixOf [] then new ++ List.drop old.length [] else []
  | c :: rest =>
    if old.isPrefixOf (c :: rest) then new ++ List.drop old.length (c :: rest)
    else c :: pyReplaceOnce old new rest

/-! ## Identifier codec
(`basin3d.core.synthesis._synthesize_query_identifiers` and the
prefix-splitting logic of `DataSourceModelAccess.retrieve`). -/

/-- The composite identifier wire format `"<id-prefix>-<local-id>"`. -/
def composeId (pfx localId : Ident) : Ident := pfx ++ '-' :: localId

/-- `extract_id` from `_synthesize_query_identifiers` (synthesis.py lines
42-52): if the identifier is truthy, split it on `"-"`, and remove the first
occurrence of `"<first-chunk>-"` from it. -/
def extract_id (identifer : Ident) : Ident :=
  if identifer = [] then identifer
  else pyReplaceOnce (((pySplit identifer '-').headD []) ++ ['-']) [] identifer

/-- The `values` argument of `_synthesize_query_identifiers`: either a
comma-joined string or a list of strings (synthesis.py lines 39-40). -/
inductive QueryValues
  | str (s : Ident)
  | strList (l : List Ident)
deriving DecidableEq

/-- Normalization applied at the top of `_synthesize_query_identifiers`:
a string input is split on `","`. -/
def QueryValues.asList : QueryValues → List Ident
  | .str s => pySplit s ','
  | .strList l => l

/-- Python truthiness of the `values` argument. -/
def QueryValues.pyTruthy : QueryValues → Bool
  | .str s => !s.isEmpty
  | .strList l => !l.isEmpty

/-- `_synthesize_query_identifiers(values, id_prefix)` (synthesis.py lines
30-56): keep the entries that start with `"<id-prefix>-"` and strip the
leading prefix from each. -/
def synthesize_query_identifiers (values : QueryValues) (pfx : Ident) : List Ident :=
  ((values.asList).filter (fun x => (pfx ++ ['-']).isPrefixOf x)).map extract_id

/-- The decomposition performed by `DataSourceModelAccess.retrieve`
(synthesis.py lines 277 and 286): the prefix is the chunk before the first
`"-"`, and the local id is the identifier with the first occurrence of
`"<prefix>-"` removed. -/
def decomposeId (composite : Ident) : Ident × Ident :=
  ((pySplit composite '-').headD [],
   pyReplaceOnce (((pySplit composite '-').headD []) ++ ['-']) [] composite)

/-! ## Codec lemmas -/

theorem pySplitAux_no_sep (sep : Char) (p : List Char) (h : sep ∉ p) :
    ∀ rest acc, pySplitAux sep (p ++ sep :: rest) acc
      = (acc.reverse ++ p) :: pySplitAux sep rest [] := by
  induction p with
  | nil => intro rest acc; simp [pySplitAux]
  | cons c cs ih =>
    intro rest acc
    have hc : ¬(c = sep) := fun hcs => h (hcs ▸ List.mem_cons_self c cs)
    have hcs : sep ∉ cs := fun hm => h (List.mem_cons_of_mem c hm)
    have hstep : pySplitAux sep (c :: (cs ++ sep :: rest)) acc
        = pySplitAux sep (cs ++ sep :: rest) (c :: acc) := by
      simp [pySplitAux, hc]
    rw [List.cons_append, hstep, ih hcs rest (c :: acc)]
    simp

theorem pySplit_headD (pfx rest : List Char) (h : '-' ∉ pfx) :
    (pySplit (pfx ++ '-' :: rest) '-').headD [] = pfx := by
  unfold pySplit
  rw [pySplitAux_no_sep '-' pfx h rest []]
  simp

theorem isPrefixOf_append_self (l t : List Char) : l.isPrefixOf (l ++ t) = true := by
  induction l with
  | nil => simp [List.isPrefixOf]
  | cons c cs ih => simp [List.isPrefixOf, ih]

theorem pyReplaceOnce_of_leading (old new s : List Char)
    (h : old.isPrefixOf s = true) :
    pyReplaceOnce old new s = new ++ s.drop old.length := by
  cases s with
  | nil => simp [pyReplaceOnce, h]
  | cons c rest => simp [pyReplaceOnce, h]

theorem composeId_eq_append (pfx localId : Ident) :
    composeId pfx localId = (pfx ++ ['-']) ++ localId := by
  simp [composeId]

theorem composeId_ne_nil (pfx localId : Ident) : composeId pfx localId ≠ [] := by
  cases pfx <;> simp [composeId]

theorem drop_strip (pfx localId : Ident) :
    (pfx ++ '-' :: localId).drop (pfx ++ ['-']).length = localId := by
  induction pfx with
  | nil => simp
  | cons c cs ih => simp

theorem pyReplaceOnce_strip (pfx localId : Ident) :
    pyReplaceOnce (pfx ++ ['-']) [] (pfx ++ '-' :: localId) = localId := by
  have hpre : (pfx ++ ['-']).isPrefixOf (pfx ++ '-' :: localId) = true := by
    simp
  rw [pyReplaceOnce_of_leading _ _ _ hpre, drop_strip]
  simp

theorem extract_id_composeId (pfx localId : Ident) (h : '-' ∉ pfx) :
    extract_id (composeId pfx localId) = localId := by
  unfold extract_id
  rw [if_neg (composeId_ne_nil pfx localId)]
  unfold composeId
  rw [pySplit_headD pfx localId h, pyReplaceOnce_strip]

theorem decomposeId_composeId (pfx localId : Ident) (h : '-' ∉ pfx) :
    decomposeId (composeId pfx localId) = (pfx, localId) := by
  unfold decomposeId composeId
  rw [pySplit_headD pfx localId h, pyReplaceOnce_strip]

theorem dash_not_mem_of_alphanum (pfx : Ident) (h : ∀ c ∈ pfx, c.isAlphanum) :
    '-' ∉ pfx := by
  intro hmem
  have := h '-' hmem
  simp [Char.isAlphanum, Char.isAlpha, Char.isUpper, Char.isLower, Char.isDigit] at this

/-- Claim C3: for every registered prefix `p` (alphanumeric, containing no
separator) and every local id string `local` (which may itself contain the
separator), decomposing the composite identifier composed as `"p-local"`
returns exactly `(p, local)`; in particular the identifier-extraction used in
query synthesis recovers `local` from `"p-local"` by removing only the
leading `"p-"`. -/
theorem c3_identifier_roundtrip (pfx localId : Ident)
    (halnum : ∀ c ∈ pfx, c.isAlphanum) :
    decomposeId (composeId pfx localId) = (pfx, localId)
    ∧ extract_id (composeId pfx localId) = localId
    ∧ synthesize_query_identifiers (.strList [composeId pfx localId]) pfx = [localId] := by
  have hd : '-' ∉ pfx := dash_not_mem_of_alphanum pfx halnum
  refine ⟨decomposeId_composeId pfx localId hd, extract_id_composeId pfx localId hd, ?_⟩
  unfold synthesize_query_identifiers
  have hpre := isPrefixOf_append_self (pfx ++ ['-']) localId
  rw [← composeId_eq_append] at hpre
  simp [QueryValues.asList, hpre, extract_id_composeId pfx localId hd]

/-- Claim C3 witness: concrete instance with prefix `"A"` and a local id
`"7-x"` that itself contains the separator. -/
theorem c3_identifier_roundtrip_witness :
    decomposeId (composeId ['A'] ['7', '-', 'x']) = (['A'], ['7', '-', 'x'])
    ∧ extract_id (composeId ['A'] ['7', '-', 'x']) = ['7', '-', 'x']
    ∧ synthesize_query_identifiers (.strList [composeId ['A'] ['7', '-', 'x']]) ['A']
        = [['7', '-', 'x']] :=
  c3_identifier_roundtrip ['A'] ['7', '-', 'x'] (by decide)

/-! ## Messages and diagnostics
`MonitorMixin` (synthesis.py lines 59-115) builds a `SynthesisMessage` when a
level is supplied; `DataSourceModelIterator.log` (lines 215-224) appends it to
the synthesis response, tagged with the iterator's active location. -/

/-- Modelled from the spec: `MessageLevelEnum` (severity INFO/WARN/ERROR/
CRITICAL, spec section 3) is imported by synthesis.py from
`basin3d.core.schema.enum`, but its definition is not among the provided
sources. -/
inductive MessageLevel
  | info
  | warn
  | error
  | critical
deriving DecidableEq

/-- `SynthesisMessage`: severity, text and location path (spec section 3;
constructed in `MonitorMixin.log`, synthesis.py line 77). -/
structure SynthesisMessage where
  msg : String
  level : MessageLevel
  whereLoc : Option (List String)
deriving DecidableEq

/-- A Python exception, identified by its class name and its `str(e)` text
(the two pieces the source interpolates into ERROR messages). -/
structure PyErr where
  clsName : String
  errMsg : String
deriving DecidableEq

/-- `AttributeError` raised when a Python attribute named `missing` does not
exist. -/
def attributeError (missing : String) : PyErr := ⟨"AttributeError", missing⟩

/-! ## The pull-based result merger (`DataSourceModelIterator`) -/

/-- An item pulled from a plugin's result sequence.  `vNone` stands for a
falsy item (such as Python `None`); `obj` stands for a truthy domain object. -/
inductive PyVal
  | vNone
  | obj (oid : String)
deriving DecidableEq

/-- Python truthiness of an item (`if self._next:` at synthesis.py line 165). -/
def PyVal.truthy : PyVal → Bool
  | .vNone => false
  | .obj _ => true

/-- One positional argument of the `StopIteration` payload object
(`se.value.args[i]`): either a list/tuple/set of warning texts, or a value of
any other shape. -/
inductive PyArg
  | coll (elems : List String)
  | scalar (s : String)
deriving DecidableEq

/-- The value attached to a plugin sequence's terminating `StopIteration`
(`se.value`, synthesis.py line 170): absent/falsy, a truthy object without an
`args` attribute, or a truthy object exposing `args`. -/
inductive StopValue
  | falsy
  | noArgs
  | withArgs (args : List PyArg)
deriving DecidableEq

/-- How a plugin's result sequence ends once its items are exhausted: a
`StopIteration` carrying `value`, or an exception raised by the pull itself. -/
inductive GenTerm
  | stop (value : StopValue)
  | raiseExc (e : PyErr)
deriving DecidableEq

/-- A plugin's result sequence as observed through successive `next()` calls:
the yielded items in order, then the terminating event. -/
structure ListStream where
  items : List PyVal
  term : GenTerm
deriving DecidableEq

/-- Outcome of the per-plugin setup `try` block (synthesis.py lines 188-207):
either the plugin view is missing (or lacks a `list` attribute), or setting up
(view lookup, query synthesis, or the `list` call itself) raised, or a result
sequence was obtained. -/
inductive ViewSetup
  | noView
  | raises (e : PyErr)
  | ok (stream : ListStream)
deriving DecidableEq

/-- A registered plugin as seen by the iterator: its datasource id (used in
location tags) and the outcome of setting up its listing for the requested
entity type. -/
structure PluginPt where
  dsId : String
  setup : ViewSetup
deriving DecidableEq

/-- Dictionary lookup in the plugin registry (`self.plugins[d]`), keyed by
datasource id prefix; insertion order is the registration order. -/
def lookupReg {α : Type} : List (Ident × α) → Ident → Option α
  | [], _ => none
  | e :: rest, k => if e.1 = k then some e.2 else lookupReg rest k

/-- Plugin-set resolution in `DataSourceModelIterator.__init__` (synthesis.py
lines 139-144): with a falsy datasource filter, all registered plugins in
registration order; otherwise the named plugins in filter order, names not
present in the registry dropped. -/
def resolvePlugins (reg : List (Ident × PluginPt)) (ds : List Ident) : List PluginPt :=
  if ds = [] then reg.map Prod.snd
  else ds.filterMap (fun d => lookupReg reg d)

/-- The WARN messages produced from a trailing `StopIteration` payload
(synthesis.py lines 170-175): nothing for a falsy value or empty `args`; one
WARN per element when `args[0]` is a list/tuple/set; one generic WARN
otherwise. -/
def payloadMsgs (v : StopValue) (wl : List String) : List SynthesisMessage :=
  match v with
  | .falsy => []
  | .noArgs => []
  | .withArgs [] => []
  | .withArgs (first :: _) =>
    match first with
    | .coll elems => elems.map (fun m => ⟨m, .warn, some wl⟩)
    | .scalar _ =>
      [⟨"Synthesis generated warnings but they are in the wrong format", .warn, some wl⟩]

/-- Whether processing the `StopIteration` payload itself raises: accessing
`se.value.args` on a truthy value without an `args` attribute raises an
uncaught `AttributeError` inside the `except` clause. -/
def stopAborts : StopValue → Option PyErr
  | .noArgs => some (attributeError "args")
  | _ => none

/-- The observable outcome of draining a `DataSourceModelIterator` to the end:
the items returned to the caller in order, the messages appended to the
synthesis response, and the exception that escaped `__next__`, if any. -/
structure RunResult where
  items : List PyVal
  messages : List SynthesisMessage
  aborted : Option PyErr
deriving DecidableEq

/-- Full-drain semantics of `DataSourceModelIterator.__next__` (synthesis.py
lines 153-213) over the resolved plugin list.  Per plugin: a missing view
appends one WARN; a setup exception appends one ERROR; an obtained sequence is
pulled until a falsy item (advance to the next plugin, discarding the rest) or
exhaustion (process the trailing payload, then advance); an exception raised
by a pull escapes `__next__` and ends the whole iteration. -/
def runFrom (modelName : String) : List PluginPt → RunResult
  | [] => ⟨[], [], none⟩
  | p :: rest =>
    match p.setup with
    | .noView =>
      let r := runFrom modelName rest
      ⟨r.items, ⟨"Plugin view does not exist", .warn, some [p.dsId, modelName]⟩ :: r.messages,
        r.aborted⟩
    | .raises e =>
      let r := runFrom modelName rest
      ⟨r.items,
        ⟨"Unexpected Error(" ++ e.clsName ++ "): " ++ e.errMsg, .error, some [p.dsId, modelName]⟩
          :: r.messages,
        r.aborted⟩
    | .ok stream =>
      if stream.items.all PyVal.truthy then
        match stream.term with
        | .raiseExc e => ⟨stream.items.takeWhile PyVal.truthy, [], some e⟩
        | .stop v =>
          match stopAborts v with
          | some e =>
            ⟨stream.items.takeWhile PyVal.truthy, payloadMsgs v [p.dsId, modelName], some e⟩
          | none =>
            let r := runFrom modelName rest
            ⟨stream.items.takeWhile PyVal.truthy ++ r.items,
              payloadMsgs v [p.dsId, modelName] ++ r.messages, r.aborted⟩
      else
        let r := runFrom modelName rest
        ⟨stream.items.takeWhile PyVal.truthy ++ r.items, r.messages, r.aborted⟩

/-- The items one plugin contributes to the merged output: the truthy prefix
of its sequence, nothing when its view is missing or its setup raised. -/
def PluginPt.emits (p : PluginPt) : List PyVal :=
  match p.setup with
  | .ok stream => stream.items.takeWhile PyVal.truthy
  | _ => []

/-- The messages one plugin contributes when iteration is not cut short. -/
def PluginPt.contributes (modelName : String) (p : PluginPt) : List SynthesisMessage :=
  match p.setup with
  | .noView => [⟨"Plugin view does not exist", .warn, some [p.dsId, modelName]⟩]
  | .raises e =>
    [⟨"Unexpected Error(" ++ e.clsName ++ "): " ++ e.errMsg, .error, some [p.dsId, modelName]⟩]
  | .ok stream =>
    if stream.items.all PyVal.truthy then
      match stream.term with
      | .raiseExc _ => []
      | .stop v => payloadMsgs v [p.dsId, modelName]
    else []

/-- Whether draining this plugin lets an exception escape `__next__`. -/
def PluginPt.drainAborts (p : PluginPt) : Bool :=
  match p.setup with
  | .ok stream =>
    if stream.items.all PyVal.truthy then
      match stream.term with
      | .raiseExc _ => true
      | .stop v => (stopAborts v).isSome
    else false
  | _ => false

/-! ## Merger run lemmas -/

theorem runFrom_nil (modelName : String) : runFrom modelName [] = ⟨[], [], none⟩ := rfl

theorem runFrom_cons_noView (modelName : String) (p : PluginPt) (rest : List PluginPt)
    (h : p.setup = .noView) :
    runFrom modelName (p :: rest)
      = ⟨(runFrom modelName rest).items,
         ⟨"Plugin view does not exist", .warn, some [p.dsId, modelName]⟩
           :: (runFrom modelName rest).messages,
         (runFrom modelName rest).aborted⟩ := by
  simp [runFrom, h]

theorem runFrom_cons_raises (modelName : String) (p : PluginPt) (rest : List PluginPt)
    (e : PyErr) (h : p.setup = .raises e) :
    runFrom modelName (p :: rest)
      = ⟨(runFrom modelName rest).items,
         ⟨"Unexpected Error(" ++ e.clsName ++ "): " ++ e.errMsg, .error, some [p.dsId, modelName]⟩
           :: (runFrom modelName rest).messages,
         (runFrom modelName rest).aborted⟩ := by
  simp [runFrom, h]

theorem runFrom_cons_falsy (modelName : String) (p : PluginPt) (rest : List PluginPt)
    (stream : ListStream) (h : p.setup = .ok stream)
    (hfalsy : stream.items.all PyVal.truthy = false) :
    runFrom modelName (p :: rest)
      = ⟨stream.items.takeWhile PyVal.truthy ++ (runFrom modelName rest).items,
         (runFrom modelName rest).messages,
         (runFrom modelName rest).aborted⟩ := by
  simp [runFrom, h, hfalsy]

theorem runFrom_cons_raiseExc (modelName : String) (p : PluginPt) (rest : List PluginPt)
    (stream : ListStream) (e : PyErr) (h : p.setup = .ok stream)
    (hall : stream.items.all PyVal.truthy = true) (hterm : stream.term = .raiseExc e) :
    runFrom modelName (p :: rest)
      = ⟨stream.items.takeWhile PyVal.truthy, [], some e⟩ := by
  simp [runFrom, h, hall, hterm]

theorem runFrom_cons_stopAbort (modelName : String) (p : PluginPt) (rest : List PluginPt)
    (stream : ListStream) (v : StopValue) (e : PyErr) (h : p.setup = .ok stream)
    (hall : stream.items.all PyVal.truthy = true) (hterm : stream.term = .stop v)
    (hv : stopAborts v = some e) :
    runFrom modelName (p :: rest)
      = ⟨stream.items.takeWhile PyVal.truthy, payloadMsgs v [p.dsId, modelName], some e⟩ := by
  simp [runFrom, h, hall, hterm, hv]

theorem runFrom_cons_stop (modelName : String) (p : PluginPt) (rest : List PluginPt)
    (stream : ListStream) (v : StopValue) (h : p.setup = .ok stream)
    (hall : stream.items.all PyVal.truthy = true) (hterm : stream.term = .stop v)
    (hv : stopAborts v = none) :
    runFrom modelName (p :: rest)
      = ⟨stream.items.takeWhile PyVal.truthy ++ (runFrom modelName rest).items,
         payloadMsgs v [p.dsId, modelName] ++ (runFrom modelName rest).messages,
         (runFrom modelName rest).aborted⟩ := by
  simp [runFrom, h, hall, hterm, hv]

/-- When no plugin's drain lets an exception escape, the full run is the
plugin-by-plugin concatenation of each plugin's items and messages, in
resolved order, and nothing escapes. -/
theorem runFrom_no_abort (modelName : String) (ps : List PluginPt)
    (h : ∀ p ∈ ps, p.drainAborts = false) :
    runFrom modelName ps
      = ⟨(ps.map PluginPt.emits).flatten,
         (ps.map (PluginPt.contributes modelName)).flatten, none⟩ := by
  induction ps with
  | nil => simp [runFrom_nil]
  | cons p rest ih =>
    have hp : p.drainAborts = false := h p (List.mem_cons_self p rest)
    have hrest := ih (fun q hq => h q (List.mem_cons_of_mem p hq))
    cases hset : p.setup with
    | noView =>
      rw [runFrom_cons_noView modelName p rest hset, hrest]
      simp [PluginPt.emits, PluginPt.contributes, hset]
    | raises e =>
      rw [runFrom_cons_raises modelName p rest e hset, hrest]
      simp [PluginPt.emits, PluginPt.contributes, hset]
    | ok stream =>
      cases hall : stream.items.all PyVal.truthy with
      | false =>
        rw [runFrom_cons_falsy modelName p rest stream hset hall, hrest]
        simp [PluginPt.emits, PluginPt.contributes, hset, hall]
      | true =>
        cases hterm : stream.term with
        | raiseExc e =>
          exfalso
          simp [PluginPt.drainAborts, hset, hall, hterm] at hp
        | stop v =>
          cases hv : stopAborts v with
          | some e =>
            exfalso
            simp [PluginPt.drainAborts, hset, hall, hterm, hv] at hp
          | none =>
            rw [runFrom_cons_stop modelName p rest stream v hset hall hterm hv, hrest]
            simp [PluginPt.emits, PluginPt.contributes, hset, hall, hterm]

/-- Even when an exception escapes mid-run, the items already returned are a
plugin-by-plugin, in-order prefix of the full concatenation: the merger never
reorders, interleaves, or deduplicates across plugins. -/
theorem runFrom_items_ordered (modelName : String) (ps : List PluginPt) :
    (runFrom modelName ps).items <+: (ps.map PluginPt.emits).flatten := by
  induction ps with
  | nil => simp [runFrom_nil]
  | cons p rest ih =>
    cases hset : p.setup with
    | noView =>
      rw [runFrom_cons_noView modelName p rest hset]
      simp only [List.map_cons, List.flatten_cons, PluginPt.emits, hset, List.nil_append]
      exact ih
    | raises e =>
      rw [runFrom_cons_raises modelName p rest e hset]
      simp only [List.map_cons, List.flatten_cons, PluginPt.emits, hset, List.nil_append]
      exact ih
    | ok stream =>
      cases hall : stream.items.all PyVal.truthy with
      | false =>
        rw [runFrom_cons_falsy modelName p rest stream hset hall]
        simp only [List.map_cons, List.flatten_cons, PluginPt.emits, hset]
        obtain ⟨t, ht⟩ := ih
        exact ⟨t, by rw [List.append_assoc, ht]⟩
      | true =>
        cases hterm : stream.term with
        | raiseExc e =>
          rw [runFrom_cons_raiseExc modelName p rest stream e hset hall hterm]
          simp only [List.map_cons, List.flatten_cons, PluginPt.emits, hset]
          exact ⟨(rest.map PluginPt.emits).flatten, rfl⟩
        | stop v =>
          cases hv : stopAborts v with
          | some e =>
            rw [runFrom_cons_stopAbort modelName p rest stream v e hset hall hterm hv]
            simp only [List.map_cons, List.flatten_cons, PluginPt.emits, hset]
            exact ⟨(rest.map PluginPt.emits).flatten, rfl⟩
          | none =>
            rw [runFrom_cons_stop modelName p rest stream v hset hall hterm hv]
            simp only [List.map_cons, List.flatten_cons, PluginPt.emits, hset]
            obtain ⟨t, ht⟩ := ih
            exact ⟨t, by rw [List.append_assoc, ht]⟩

/-! ## Message tagging helpers -/

theorem payloadMsgs_whereLoc (v : StopValue) (wl : List String) (m : SynthesisMessage)
    (hm : m ∈ payloadMsgs v wl) : m.whereLoc = some wl := by
  cases v with
  | falsy => simp [payloadMsgs] at hm
  | noArgs => simp [payloadMsgs] at hm
  | withArgs args =>
    cases args with
    | nil => simp [payloadMsgs] at hm
    | cons first more =>
      cases first with
      | coll elems =>
        simp [payloadMsgs] at hm
        obtain ⟨a, _, ha⟩ := hm
        rw [← ha]
      | scalar s =>
        simp [payloadMsgs] at hm
        rw [hm]

theorem contributes_whereLoc (modelName : String) (q : PluginPt) (m : SynthesisMessage)
    (hm : m ∈ q.contributes modelName) : m.whereLoc = some [q.dsId, modelName] := by
  cases hq : q.setup with
  | noView =>
    simp [PluginPt.contributes, hq] at hm
    rw [hm]
  | raises e =>
    simp [PluginPt.contributes, hq] at hm
    rw [hm]
  | ok stream =>
    simp only [PluginPt.contributes, hq] at hm
    cases hall : stream.items.all PyVal.truthy with
    | false => simp [hall] at hm
    | true =>
      simp only [hall, if_pos] at hm
      cases hterm : stream.term with
      | raiseExc e => simp [hterm] at hm
      | stop v =>
        simp only [hterm] at hm
        exact payloadMsgs_whereLoc v _ m hm

/-- The predicate "an ERROR message tagged with this plugin's id and the
entity type", used to count the diagnostics attributed to one plugin. -/
def errTagP (dsId modelName : String) (m : SynthesisMessage) : Bool :=
  decide (m.level = MessageLevel.error ∧ m.whereLoc = some [dsId, modelName])

theorem contributes_countP_zero (modelName : String) (p q : PluginPt)
    (hne : q.dsId ≠ p.dsId) :
    (q.contributes modelName).countP (errTagP p.dsId modelName) = 0 := by
  rw [List.countP_eq_zero]
  intro m hm
  have hw := contributes_whereLoc modelName q m hm
  simp [errTagP, hw, hne]

theorem countP_flatten_zero (modelName : String) (p : PluginPt) (l : List PluginPt)
    (h : ∀ q ∈ l, q.dsId ≠ p.dsId) :
    ((l.map (PluginPt.contributes modelName)).flatten).countP (errTagP p.dsId modelName)
      = 0 := by
  induction l with
  | nil => simp
  | cons q rest ih =>
    simp only [List.map_cons, List.flatten_cons, List.countP_append]
    rw [contributes_countP_zero modelName p q (h q (List.mem_cons_self q rest)),
      ih (fun r hr => h r (List.mem_cons_of_mem q hr))]

/-! ## Claims about the result merger -/

/-- Claim C1 counterexample: plugin "Alpha" yields one item and then its
sequence raises on the next pull; plugin "Beta" follows it.  Contrary to the
claim, the exception is not caught at the plugin boundary (it escapes), no
ERROR message is appended, and Beta's results are not emitted. -/
theorem c1_counterexample :
    runFrom "MeasurementTimeseriesTVPObservation"
        [⟨"Alpha", .ok ⟨[.obj "A-1"], .raiseExc ⟨"ValueError", "boom"⟩⟩⟩,
         ⟨"Beta", .ok ⟨[.obj "B-1"], .stop .falsy⟩⟩]
      = ⟨[.obj "A-1"], [], some ⟨"ValueError", "boom"⟩⟩ := by
  rfl

/-- Claim C1 (amended): an unexpected exception raised by a plugin's listing
call at invocation time — while looking up the plugin view, synthesizing the
plugin-scoped query, or making the `list` call itself — is caught at the
plugin boundary, exactly one ERROR message tagged with that plugin's id and
the entity type is appended, and iteration proceeds so that every later
plugin's results are still emitted.  (An exception raised later, while
draining the already-returned result sequence, is not caught: it escapes and
ends the iteration, as the counterexample shows.) -/
theorem c1_plugin_fault_amended (modelName : String) (pre post : List PluginPt)
    (p : PluginPt) (e : PyErr)
    (hp : p.setup = .raises e)
    (hnoabort : ∀ q ∈ pre ++ p :: post, q.drainAborts = false)
    (hids : ∀ q ∈ pre ++ post, q.dsId ≠ p.dsId) :
    (runFrom modelName (pre ++ p :: post)).aborted = none
    ∧ (runFrom modelName (pre ++ p :: post)).items
        = ((pre ++ p :: post).map PluginPt.emits).flatten
    ∧ ((runFrom modelName (pre ++ p :: post)).messages.countP
        (errTagP p.dsId modelName)) = 1 := by
  rw [runFrom_no_abort modelName _ hnoabort]
  refine ⟨rfl, rfl, ?_⟩
  simp only [List.map_append, List.map_cons, List.flatten_append, List.flatten_cons,
    List.countP_append]
  have hpre : ∀ q ∈ pre, q.dsId ≠ p.dsId :=
    fun q hq => hids q (List.mem_append_left post hq)
  have hpost : ∀ q ∈ post, q.dsId ≠ p.dsId :=
    fun q hq => hids q (List.mem_append_right pre hq)
  rw [countP_flatten_zero modelName p pre hpre, countP_flatten_zero modelName p post hpost]
  simp [PluginPt.contributes, hp, errTagP, List.countP_cons]

/-- Claim C1 (amended) witness: plugin "Alpha" fails at invocation time,
plugin "Beta" after it still contributes its item, exactly one ERROR tagged
["Alpha", entity type] is recorded, and nothing escapes. -/
theorem c1_plugin_fault_amended_witness :
    (runFrom "MeasurementTimeseriesTVPObservation"
        ([] ++ ⟨"Alpha", .raises ⟨"ValueError", "boom"⟩⟩
          :: [⟨"Beta", .ok ⟨[.obj "B-1"], .stop .falsy⟩⟩])).aborted = none
    ∧ (runFrom "MeasurementTimeseriesTVPObservation"
        ([] ++ ⟨"Alpha", .raises ⟨"ValueError", "boom"⟩⟩
          :: [⟨"Beta", .ok ⟨[.obj "B-1"], .stop .falsy⟩⟩])).items
        = (([] ++ (⟨"Alpha", .raises ⟨"ValueError", "boom"⟩⟩ : PluginPt)
            :: [⟨"Beta", .ok ⟨[.obj "B-1"], .stop .falsy⟩⟩]).map PluginPt.emits).flatten
    ∧ ((runFrom "MeasurementTimeseriesTVPObservation"
        ([] ++ ⟨"Alpha", .raises ⟨"ValueError", "boom"⟩⟩
          :: [⟨"Beta", .ok ⟨[.obj "B-1"], .stop .falsy⟩⟩])).messages.countP
        (errTagP "Alpha" "MeasurementTimeseriesTVPObservation")) = 1 :=
  c1_plugin_fault_amended "MeasurementTimeseriesTVPObservation" []
    [⟨"Beta", .ok ⟨[.obj "B-1"], .stop .falsy⟩⟩]
    ⟨"Alpha", .raises ⟨"ValueError", "boom"⟩⟩ ⟨"ValueError", "boom"⟩
    rfl (by decide) (by decide)

/-- Claim C6: the resolved plugin set is all registered plugins in
registration order when the query has no datasource filter, or exactly the
named plugins preserving filter order with unknown datasource names dropped
silently; the merged output is emitted plugin-by-plugin in that resolved
order, preserving each plugin's internal yield order, with no cross-plugin
sort or dedup. -/
theorem c6_resolution_and_merge_order (modelName : String)
    (reg : List (Ident × PluginPt)) :
    resolvePlugins reg [] = reg.map Prod.snd
    ∧ (∀ ds, ds ≠ [] → resolvePlugins reg ds = ds.filterMap (fun d => lookupReg reg d))
    ∧ (∀ pre post d, lookupReg reg d = none → pre ++ post ≠ [] →
        resolvePlugins reg (pre ++ d :: post) = resolvePlugins reg (pre ++ post))
    ∧ (∀ ds, (runFrom modelName (resolvePlugins reg ds)).items
        <+: ((resolvePlugins reg ds).map PluginPt.emits).flatten)
    ∧ (∀ ds, (∀ p ∈ resolvePlugins reg ds, p.drainAborts = false) →
        runFrom modelName (resolvePlugins reg ds)
          = ⟨((resolvePlugins reg ds).map PluginPt.emits).flatten,
             ((resolvePlugins reg ds).map (PluginPt.contributes modelName)).flatten,
             none⟩) := by
  refine ⟨by simp [resolvePlugins], fun ds hds => by simp [resolvePlugins, hds], ?_, ?_, ?_⟩
  · intro pre post d hd hne
    have h1 : pre ++ d :: post ≠ [] := by
      cases pre <;> simp
    unfold resolvePlugins
    rw [if_neg h1, if_neg hne, List.filterMap_append, List.filterMap_append,
      List.filterMap_cons, hd]
  · intro ds
    exact runFrom_items_ordered modelName (resolvePlugins reg ds)
  · intro ds hds
    exact runFrom_no_abort modelName (resolvePlugins reg ds) hds

/-- The registry for the Claim C6 witness: plugins "Alpha" (prefix "A",
yields A1, A2) and "Beta" (prefix "B", yields B1, B2), in that registration
order. -/
def regC6 : List (Ident × PluginPt) :=
  [(['A'], ⟨"Alpha", .ok ⟨[.obj "A1", .obj "A2"], .stop .falsy⟩⟩),
   (['B'], ⟨"Beta", .ok ⟨[.obj "B1", .obj "B2"], .stop .falsy⟩⟩)]

/-- Claim C6 witness: with the two-plugin registry, no filter resolves both
plugins in registration order, a filter resolves the named plugin, an
unknown name "Z" is dropped silently, and the unfiltered merged output is the
plugin-by-plugin concatenation with nothing escaping. -/
theorem c6_witness :
    resolvePlugins regC6 [] = regC6.map Prod.snd
    ∧ resolvePlugins regC6 [['B']] = [['B']].filterMap (fun d => lookupReg regC6 d)
    ∧ resolvePlugins regC6 ([['B']] ++ ['Z'] :: [['A']])
        = resolvePlugins regC6 ([['B']] ++ [['A']])
    ∧ runFrom "MonitoringFeature" (resolvePlugins regC6 [])
        = ⟨((resolvePlugins regC6 []).map PluginPt.emits).flatten,
           ((resolvePlugins regC6 []).map (PluginPt.contributes "MonitoringFeature")).flatten,
           none⟩ :=
  ⟨(c6_resolution_and_merge_order "MonitoringFeature" regC6).1,
   (c6_resolution_and_merge_order "MonitoringFeature" regC6).2.1 [['B']] (by decide),
   (c6_resolution_and_merge_order "MonitoringFeature" regC6).2.2.1 [['B']] [['A']] ['Z']
     (by decide) (by decide),
   (c6_resolution_and_merge_order "MonitoringFeature" regC6).2.2.2.2 [] (by decide)⟩

/-- Claim C8: a falsy item (such as `None`) in a plugin's result sequence
stops the drain of that plugin at the falsy item — the remaining items, and
any trailing diagnostics, are silently discarded — and iteration advances to
the next plugin. -/
theorem c8_falsy_item_stops_drain (modelName : String) (p : PluginPt)
    (rest : List PluginPt) (stream : ListStream) (hset : p.setup = .ok stream)
    (hfalsy : stream.items.all PyVal.truthy = false) :
    runFrom modelName (p :: rest)
      = ⟨stream.items.takeWhile PyVal.truthy ++ (runFrom modelName rest).items,
         (runFrom modelName rest).messages, (runFrom modelName rest).aborted⟩ :=
  runFrom_cons_falsy modelName p rest stream hset hfalsy

/-- Claim C8 witness: plugin "Alpha" yields A1, then `None`, then A2, with
a trailing payload; only A1 is emitted, the payload warnings are discarded,
and plugin "Beta" is drained next. -/
theorem c8_falsy_item_stops_drain_witness :
    runFrom "MonitoringFeature"
        [⟨"Alpha", .ok ⟨[.obj "A1", .vNone, .obj "A2"], .stop (.withArgs [.coll ["w"]])⟩⟩,
         ⟨"Beta", .ok ⟨[.obj "B1"], .stop .falsy⟩⟩]
      = ⟨([.obj "A1", .vNone, .obj "A2"] : List PyVal).takeWhile PyVal.truthy
          ++ (runFrom "MonitoringFeature" [⟨"Beta", .ok ⟨[.obj "B1"], .stop .falsy⟩⟩]).items,
         (runFrom "MonitoringFeature" [⟨"Beta", .ok ⟨[.obj "B1"], .stop .falsy⟩⟩]).messages,
         (runFrom "MonitoringFeature" [⟨"Beta", .ok ⟨[.obj "B1"], .stop .falsy⟩⟩]).aborted⟩ :=
  c8_falsy_item_stops_drain "MonitoringFeature"
    ⟨"Alpha", .ok ⟨[.obj "A1", .vNone, .obj "A2"], .stop (.withArgs [.coll ["w"]])⟩⟩
    [⟨"Beta", .ok ⟨[.obj "B1"], .stop .falsy⟩⟩]
    ⟨[.obj "A1", .vNone, .obj "A2"], .stop (.withArgs [.coll ["w"]])⟩ rfl rfl

/-- Claim C10: when a plugin's sequence exhausts with a trailing
`StopIteration` payload, a first argument that is a list/tuple/set yields one
WARN per element, and a first argument of any other shape yields exactly one
generic WARN ("Synthesis generated warnings but they are in the wrong
format"). -/
theorem c10_stop_payload_warnings (modelName : String) (p : PluginPt)
    (rest : List PluginPt) (stream : ListStream) (first : PyArg) (more : List PyArg)
    (hset : p.setup = .ok stream)
    (hall : stream.items.all PyVal.truthy = true)
    (hterm : stream.term = .stop (.withArgs (first :: more))) :
    (∀ elems, first = .coll elems →
      (runFrom modelName (p :: rest)).messages
        = elems.map (fun m => (⟨m, .warn, some [p.dsId, modelName]⟩ : SynthesisMessage))
          ++ (runFrom modelName rest).messages)
    ∧ (∀ s, first = .scalar s →
      (runFrom modelName (p :: rest)).messages
        = ⟨"Synthesis generated warnings but they are in the wrong format", .warn,
             some [p.dsId, modelName]⟩ :: (runFrom modelName rest).messages) := by
  have hv : stopAborts (.withArgs (first :: more)) = none := rfl
  constructor
  · intro elems he
    rw [runFrom_cons_stop modelName p rest stream (.withArgs (first :: more)) hset hall
      hterm hv]
    simp [payloadMsgs, he]
  · intro s he
    rw [runFrom_cons_stop modelName p rest stream (.withArgs (first :: more)) hset hall
      hterm hv]
    simp [payloadMsgs, he]

/-- Claim C10 witness: a list-shaped payload produces one WARN per element;
a string-shaped payload produces the single generic WARN. -/
theorem c10_stop_payload_warnings_witness :
    (runFrom "MonitoringFeature"
        [⟨"Alpha", .ok ⟨[.obj "A1"], .stop (.withArgs [.coll ["w1", "w2"]])⟩⟩]).messages
      = (["w1", "w2"].map
          (fun m => (⟨m, .warn, some ["Alpha", "MonitoringFeature"]⟩ : SynthesisMessage)))
        ++ (runFrom "MonitoringFeature" []).messages
    ∧ (runFrom "MonitoringFeature"
        [⟨"Beta", .ok ⟨[.obj "B1"], .stop (.withArgs [.scalar "oops"])⟩⟩]).messages
      = ⟨"Synthesis generated warnings but they are in the wrong format", .warn,
           some ["Beta", "MonitoringFeature"]⟩
        :: (runFrom "MonitoringFeature" []).messages :=
  ⟨(c10_stop_payload_warnings "MonitoringFeature"
      ⟨"Alpha", .ok ⟨[.obj "A1"], .stop (.withArgs [.coll ["w1", "w2"]])⟩⟩ []
      ⟨[.obj "A1"], .stop (.withArgs [.coll ["w1", "w2"]])⟩ (.coll ["w1", "w2"]) []
      rfl rfl rfl).1 ["w1", "w2"] rfl,
   (c10_stop_payload_warnings "MonitoringFeature"
      ⟨"Beta", .ok ⟨[.obj "B1"], .stop (.withArgs [.scalar "oops"])⟩⟩ []
      ⟨[.obj "B1"], .stop (.withArgs [.scalar "oops"])⟩ (.scalar "oops") []
      rfl rfl rfl).2 "oops" rfl⟩

/-! ## The facade: `list` and `retrieve` -/

/-- Modelled from the spec: the base query's `datasource` filter field (spec
sections 3 and 6); the query schema module (`basin3d.core.schema.query`) is
not among the provided sources.  A missing filter is the empty list (Python
falsy), entries name datasource id prefixes. -/
structure QueryBase where
  datasource : List Ident
deriving DecidableEq

/-- Modelled from the spec: `SynthesisResponse` (spec section 3) echoes the
original query and holds an optional single datum and an append-only message
list; its definition lives in the query schema module, which is not among the
provided sources. -/
structure SynthesisResponse (Q : Type) where
  query : Q
  data : Option PyVal := none
  messages : List SynthesisMessage := []
deriving DecidableEq

/-- The state built by `DataSourceModelIterator.__init__` (synthesis.py lines
128-151): the fresh response around the unsynthesized query, the resolved
plugin list, and the iteration state. -/
structure DataSourceModelIterator where
  synthesis_response : SynthesisResponse QueryBase
  plugins : List PluginPt
  plugin_index : Int
  model_access_iterator : Option ListStream
  whereLoc : Option (List String)
deriving DecidableEq

/-- `DataSourceModelIterator.__init__`: response with no messages, resolved
plugin set, index -1, no open sub-iterator, no location. -/
def DataSourceModelIterator.init (query : QueryBase) (reg : List (Ident × PluginPt)) :
    DataSourceModelIterator :=
  ⟨⟨query, none, []⟩, resolvePlugins reg query.datasource, -1, none, none⟩

/-- `DataSourceModelAccess.list` (synthesis.py lines 257-264): construct and
return the iterator; nothing else happens until the caller pulls. -/
def DataSourceModelAccess.list (reg : List (Ident × PluginPt)) (query : QueryBase) :
    DataSourceModelIterator :=
  DataSourceModelIterator.init query reg

/-- Claim C7: for every query, `list(query)` returns immediately with an
attached, not-yet-drained iterator and an empty message list on the response;
no plugin sub-iterator is open and the plugin index is still -1 — no plugin
capability has been invoked and no query synthesized until the first pull
(pulling is modelled separately by `runFrom`). -/
theorem c7_list_lazy (query : QueryBase) (reg : List (Ident × PluginPt)) :
    (DataSourceModelAccess.list reg query).synthesis_response.messages = []
    ∧ (DataSourceModelAccess.list reg query).synthesis_response.query = query
    ∧ (DataSourceModelAccess.list reg query).synthesis_response.data = none
    ∧ (DataSourceModelAccess.list reg query).model_access_iterator = none
    ∧ (DataSourceModelAccess.list reg query).plugin_index = -1
    ∧ (DataSourceModelAccess.list reg query).plugins
        = resolvePlugins reg query.datasource :=
  ⟨rfl, rfl, rfl, rfl, rfl, rfl⟩

/-! ## `DataSourceModelAccess.retrieve` (synthesis.py lines 267-307) -/

/-- The plugin-access view relevant to `retrieve`, for the requested entity
type: either the synthesis model is not in `plugin_views` at all, or the view
exists but exposes no `get` attribute, or the view exposes `get` whose call
returns an optional domain object.  (That an accessor may expose only some of
`list`/`get` is modelled from the spec, sections 6 and 9; the plugin module
itself is not among the provided sources.) -/
inductive GetView
  | noView
  | viewWithoutGet
  | view (getResult : Option PyVal)
deriving DecidableEq

/-- A registered plugin as seen by `retrieve`. -/
structure RetrievePlugin where
  dsId : String
  getView : GetView
deriving DecidableEq

/-- `QueryById` (modelled from the spec, section 3): an optional composite id
plus the datasource filter the synthesized copy receives. -/
structure QueryById where
  qid : Option Ident
  dsFilter : List String := []
deriving DecidableEq

instance {e a : Type} [DecidableEq e] [DecidableEq a] : DecidableEq (Except e a) :=
  fun x y =>
    match x, y with
    | .error e1, .error e2 => decidable_of_iff (e1 = e2) (by simp)
    | .ok v1, .ok v2 => decidable_of_iff (v1 = v2) (by simp)
    | .error _, .ok _ => isFalse (by simp)
    | .ok _, .error _ => isFalse (by simp)

/-- Result of a `retrieve` call: the response (or the exception that escaped)
together with the `get` invocations made — each recorded as the consulted
datasource id and the plugin-scoped query passed to `get`. -/
structure RetrieveResult where
  response : Except PyErr (SynthesisResponse QueryById)
  consulted : List (String × QueryById)
deriving DecidableEq

/-- The prefix candidate `id_list[0]` computed by `retrieve` (synthesis.py
line 277): the chunk of the id before its first `"-"`. -/
def firstChunk (qid : Ident) : Ident := (pySplit qid '-').headD []

/-- `DataSourceModelAccess.retrieve` (synthesis.py lines 267-307): with a
falsy id, return an empty response; otherwise split the id on `"-"`, look the
first chunk up in the plugin registry (`KeyError` caught); unknown prefix
appends one ERROR ("DataSource not not found..."); known prefix with the
entity type absent from the plugin views appends one WARN; otherwise the
local id is the id with the leading `"<prefix>-"` removed, a plugin-scoped
copy of the query is built (local id, single-source filter) and the view's
`get` is invoked — when the view exposes no `get`, the attribute access
raises an uncaught `AttributeError`. -/
def DataSourceModelAccess.retrieve (modelName : String)
    (reg : List (Ident × RetrievePlugin)) (query : QueryById) : RetrieveResult :=
  match query.qid with
  | none => ⟨.ok ⟨query, none, []⟩, []⟩
  | some qid =>
    if qid = [] then ⟨.ok ⟨query, none, []⟩, []⟩
    else
      match lookupReg reg (firstChunk qid) with
      | none =>
        ⟨.ok ⟨query, none,
          [⟨"DataSource not not found for id " ++ String.mk qid, .error, none⟩]⟩, []⟩
      | some plugin =>
        match plugin.getView with
        | .noView =>
          ⟨.ok ⟨query, none,
            [⟨"Plugin view does not exist", .warn, some [plugin.dsId, modelName]⟩]⟩, []⟩
        | .viewWithoutGet => ⟨.error (attributeError "get"), []⟩
        | .view result =>
          ⟨.ok ⟨query, result, []⟩,
           [(plugin.dsId,
             ⟨some (pyReplaceOnce (firstChunk qid ++ ['-']) [] qid),
              [plugin.dsId]⟩)]⟩

/-- Claim C9: a `retrieve` call whose `query.id` is absent or empty consults
no plugin and returns a well-formed response echoing the query with no data
and an empty message list. -/
theorem c9_retrieve_empty_id (modelName : String) (reg : List (Ident × RetrievePlugin))
    (query : QueryById) (h : query.qid = none ∨ query.qid = some []) :
    DataSourceModelAccess.retrieve modelName reg query
      = ⟨.ok ⟨query, none, []⟩, []⟩ := by
  cases h with
  | inl h0 => simp [DataSourceModelAccess.retrieve, h0]
  | inr h0 => simp [DataSourceModelAccess.retrieve, h0]

/-- Claim C9 witness: a query with an empty id string. -/
theorem c9_retrieve_empty_id_witness :
    DataSourceModelAccess.retrieve "MonitoringFeature"
        [(['A'], ⟨"Alpha", .view (some (.obj "A-Region1"))⟩)] ⟨some [], []⟩
      = ⟨.ok ⟨⟨some [], []⟩, none, []⟩, []⟩ :=
  c9_retrieve_empty_id "MonitoringFeature"
    [(['A'], ⟨"Alpha", .view (some (.obj "A-Region1"))⟩)] ⟨some [], []⟩ (Or.inr rfl)

/-- Claim C4: a `retrieve` call whose id has a prefix that resolves to no
registered plugin returns a response with no data and exactly one ERROR
message, and raises no exception (the `KeyError` of the dictionary lookup is
caught). -/
theorem c4_retrieve_unknown (modelName : String)
    (reg : List (Ident × RetrievePlugin)) (query : QueryById) (qid : Ident)
    (h1 : query.qid = some qid) (h2 : qid ≠ [])
    (h3 : lookupReg reg (firstChunk qid) = none) :
    DataSourceModelAccess.retrieve modelName reg query
      = ⟨.ok ⟨query, none,
          [⟨"DataSource not not found for id " ++ String.mk qid, .error, none⟩]⟩, []⟩ := by
  simp [DataSourceModelAccess.retrieve, h1, h2, h3]

/-- Claim C4 witness: `retrieve("UNKNOWN-123")` against a registry holding
only prefix "A": no data, exactly one ERROR message, no exception, no plugin
consulted. -/
theorem c4_retrieve_unknown_witness :
    DataSourceModelAccess.retrieve "MonitoringFeature"
        [(['A'], ⟨"Alpha", .view (some (.obj "A-Region1"))⟩)]
        ⟨some ("UNKNOWN-123".data), []⟩
      = ⟨.ok ⟨⟨some ("UNKNOWN-123".data), []⟩, none,
          [⟨"DataSource not not found for id " ++ String.mk ("UNKNOWN-123".data),
            .error, none⟩]⟩, []⟩ :=
  c4_retrieve_unknown "MonitoringFeature"
    [(['A'], ⟨"Alpha", .view (some (.obj "A-Region1"))⟩)]
    ⟨some ("UNKNOWN-123".data), []⟩ ("UNKNOWN-123".data)
    rfl (by decide) (by decide)

/-- Claim C5 counterexample: prefix "A" resolves to plugin "Alpha" whose view
for the entity type exists but exposes no `get`; contrary to the claim,
`retrieve("A-7")` raises an `AttributeError` instead of returning a response
with one WARN message. -/
theorem c5_counterexample :
    (DataSourceModelAccess.retrieve "MonitoringFeature"
        [(['A'], ⟨"Alpha", .viewWithoutGet⟩)] ⟨some ("A-7".data), []⟩).response
      = .error (attributeError "get") := by
  rfl

/-- Claim C5 (amended): when the id's prefix resolves to a registered plugin
whose plugin views do not contain the requested entity type at all, the call
returns a response with no data and exactly one WARN message, raising no
exception; and in all cases `retrieve` consults at most one plugin — never a
broadcast.  (When a view for the entity type exists but exposes no `get`, an
uncaught `AttributeError` escapes instead, as the counterexample shows.) -/
theorem c5_retrieve_no_view_amended (modelName : String)
    (reg : List (Ident × RetrievePlugin)) (query : QueryById) (qid : Ident)
    (plugin : RetrievePlugin)
    (h1 : query.qid = some qid) (h2 : qid ≠ [])
    (h3 : lookupReg reg (firstChunk qid) = some plugin)
    (h4 : plugin.getView = .noView) :
    DataSourceModelAccess.retrieve modelName reg query
      = ⟨.ok ⟨query, none,
          [⟨"Plugin view does not exist", .warn, some [plugin.dsId, modelName]⟩]⟩, []⟩
    ∧ ∀ (reg2 : List (Ident × RetrievePlugin)) (q2 : QueryById),
        (DataSourceModelAccess.retrieve modelName reg2 q2).consulted.length ≤ 1 := by
  constructor
  · simp [DataSourceModelAccess.retrieve, h1, h2, h3, h4]
  · intro reg2 q2
    unfold DataSourceModelAccess.retrieve
    cases hq : q2.qid with
    | none => simp
    | some qid2 =>
      by_cases hq2 : qid2 = []
      · simp [hq2]
      · simp only [hq2, if_neg]
        cases hl : lookupReg reg2 (firstChunk qid2) with
        | none => simp
        | some plugin2 =>
          cases hgv : plugin2.getView <;> simp [hgv]

/-- Claim C5 (amended) witness: prefix "A" resolves to plugin "Alpha" with no
view for the entity type: one WARN, no data, no exception; and at most one
plugin is ever consulted. -/
theorem c5_retrieve_no_view_amended_witness :
    DataSourceModelAccess.retrieve "MonitoringFeature"
        [(['A'], ⟨"Alpha", .noView⟩)] ⟨some ("A-7".data), []⟩
      = ⟨.ok ⟨⟨some ("A-7".data), []⟩, none,
          [⟨"Plugin view does not exist", .warn, some ["Alpha", "MonitoringFeature"]⟩]⟩, []⟩
    ∧ ∀ (reg2 : List (Ident × RetrievePlugin)) (q2 : QueryById),
        (DataSourceModelAccess.retrieve "MonitoringFeature" reg2 q2).consulted.length ≤ 1 :=
  c5_retrieve_no_view_amended "MonitoringFeature"
    [(['A'], ⟨"Alpha", .noView⟩)] ⟨some ("A-7".data), []⟩ ("A-7".data)
    ⟨"Alpha", .noView⟩ rfl (by decide) (by decide) rfl

/-! ## Timeseries query synthesis (Claim C2) -/

/-- The members of `TimeFrequencyEnum` exactly as defined in
`basin3d/core/schema/enum.py` lines 46-57: YEAR, MONTH, DAY, HOUR, MINUTE,
SECOND — there is no `NONE` member. -/
def TimeFrequencyEnum.members : List String :=
  ["YEAR", "MONTH", "DAY", "HOUR", "MINUTE", "SECOND"]

/-- Python attribute access `TimeFrequencyEnum.<attrName>`: the member's
value when the name is a member, otherwise the `AttributeError` raised by the
enum metaclass. -/
def TimeFrequencyEnum.attr (attrName : String) : Except PyErr String :=
  if attrName ∈ TimeFrequencyEnum.members then .ok attrName
  else .error (attributeError attrName)

/-- String-keyed association lookup used for the plugin mapping capabilities. -/
def strLookup : List (String × String) → String → Option String
  | [], _ => none
  | e :: rest, k => if e.1 = k then some e.2 else strLookup rest k

/-- Modelled from the spec: the per-plugin access consumed by the timeseries
query synthesizer (spec section 6) — the datasource id prefix, the
`getObservedProperties` variable mapping and the `getMappedAttributes`
statistic mapping; the plugin module is not among the provided sources.
Missing mappings yield omission, not errors. -/
structure TVPPluginAccess where
  dsIdPfx : Ident
  observedPropertyMap : List (String × String)
  statisticMap : List (String × String)
deriving DecidableEq

/-- `plugin_access.get_observed_properties(...)`, modelled from the spec
(section 6): the datasource variables of the broker variables that have a
mapping; unmapped variables are omitted. -/
def TVPPluginAccess.get_observed_properties (pa : TVPPluginAccess)
    (vars : List String) : List String :=
  vars.filterMap (strLookup pa.observedPropertyMap)

/-- `plugin_access.get_mapped_attributes(STATISTIC, ...)`, modelled from the
spec (section 6): the datasource attribute ids of the broker statistics that
have a mapping; unmapped values are omitted. -/
def TVPPluginAccess.get_mapped_attributes (pa : TVPPluginAccess)
    (vals : List String) : List String :=
  vals.filterMap (strLookup pa.statisticMap)

/-- Modelled from the spec: `QueryMeasurementTimeseriesTVP` fields (spec
sections 3 and 6); the query schema module is not among the provided sources.
`aggregation_duration` holds the string value of the chosen enumeration
member (default DAY, `NONE` accepted). -/
structure QueryMeasurementTimeseriesTVP where
  monitoring_features : QueryValues
  observed_property_variables : List String
  start_date : Option String := none
  end_date : Option String := none
  aggregation_duration : String := "DAY"
  statistic : List String := []
  result_quality : Option String := none
  datasource : List Ident := []
deriving DecidableEq

/-- `MeasurementTimeseriesTVPObservationAccess.synthesize_query`
(synthesis.py lines 401-452): translate `monitoring_features` and
`observed_property_variables`, copy `aggregation_duration` from the input,
then compare it against `TimeFrequencyEnum.NONE` (line 440); when the
comparison can be evaluated, anything other than NONE becomes DAY and, when a
statistic list is present, `statistic` is translated through the plugin's
attribute-mapping capability (`result_quality` translation is commented
out). -/
def MeasurementTimeseriesTVPObservationAccess.synthesize_query
    (pa : TVPPluginAccess) (query : QueryMeasurementTimeseriesTVP) :
    Except PyErr QueryMeasurementTimeseriesTVP :=
  let sq1 :=
    if query.monitoring_features.pyTruthy then
      { query with monitoring_features := (QueryValues.strList
          (synthesize_query_identifiers query.monitoring_features pa.dsIdPfx)) }
    else query
  let sq2 :=
    if ¬query.observed_property_variables.isEmpty then
      { sq1 with observed_property_variables :=
          pa.get_observed_properties query.observed_property_variables }
    else sq1
  let sq3 := { sq2 with aggregation_duration := query.aggregation_duration }
  match TimeFrequencyEnum.attr "NONE" with
  | .error e => .error e
  | .ok noneVal =>
    if sq3.aggregation_duration ≠ noneVal then
      match TimeFrequencyEnum.attr "DAY" with
      | .error e => .error e
      | .ok dayVal =>
        let sq4 := { sq3 with aggregation_duration := dayVal }
        if ¬query.statistic.isEmpty then
          .ok { sq4 with statistic := pa.get_mapped_attributes query.statistic }
        else .ok sq4
    else .ok sq3

/-- Claim C2 (code bug): `TimeFrequencyEnum` (enum.py lines 46-57) has no
`NONE` member, so evaluating `TimeFrequencyEnum.NONE` in the comparison at
synthesis.py line 440 raises `AttributeError` for every timeseries query —
the synthesized query never carries DAY or NONE, contradicting the claim and
the code's own documentation (synthesis.py lines 390 and 437-438 both
promise NONE support). -/
theorem c2_aggregation_enum_missing_none (pa : TVPPluginAccess)
    (query : QueryMeasurementTimeseriesTVP) :
    MeasurementTimeseriesTVPObservationAccess.synthesize_query pa query
      = .error (attributeError "NONE")
    ∧ "NONE" ∉ TimeFrequencyEnum.members := by
  have hNONE : TimeFrequencyEnum.attr "NONE" = .error (attributeError "NONE") := by decide
  constructor
  · unfold MeasurementTimeseriesTVPObservationAccess.synthesize_query
    simp [hNONE]
  · decide

end Basin3d
